import Mathlib

/-!
# Verification of the barter-data core streaming pipeline

Shallow embedding of `src/src/lib.rs`: the `MarketStream::init` composition for
`ExchangeWsStream`, the outbound message distributor task
(`distribute_messages_to_exchange`) and the custom application-level ping
scheduler (`schedule_pings_to_exchange`).

Asynchronous tasks are embedded as pure functions producing an explicit trace of
the observable events they perform (receives, transport sends, log lines,
enqueues, task exit reasons), parametrised by the behaviour of their
collaborators (the transport sink, the mpsc queue, the exchange connector).
The infinite ping loop is embedded with explicit fuel.
-/

namespace BarterData

/-- Outcome of one `ws_sink.send(message).await` call, as distinguished by the
distributor: success, an error for which
`is_websocket_disconnected(&error)` holds, or any other error. -/
inductive SendOutcome where
  | ok
  | errDisconnected
  | errOther
deriving DecidableEq, Repr

/-- Observable events of the distributor task
`distribute_messages_to_exchange`. `recv m` is a successful
`ws_sink_rx.recv().await`; `sent m` is a successful transport send of `m`;
`loggedSendError m` is the `error!` line for a failed send over a still
connected socket; `breakDisconnected` is the silent `break` on a disconnected
socket; `finishedQueueClosed` is loop exit because `recv()` returned `None`
(every sender handle dropped and the queue drained). -/
inductive DistEvent (Msg : Type) where
  | recv (m : Msg)
  | sent (m : Msg)
  | loggedSendError (m : Msg)
  | breakDisconnected
  | finishedQueueClosed
deriving DecidableEq, Repr

/-- Embedding of `distribute_messages_to_exchange` (src/src/lib.rs:142-161).
`queue` is the finite sequence of messages the unbounded mpsc queue will yield,
in enqueue order, after which `recv()` returns `None`; `sink i` is the outcome
of the i-th transport send attempt. The Rust loop
`while let Some(message) = ws_sink_rx.recv().await` sends each received
message; on `Err`, if the websocket is disconnected it breaks, otherwise it
logs and continues with the next message. -/
def distribute_messages_to_exchange {Msg : Type} (sink : Nat → SendOutcome) :
    List Msg → Nat → List (DistEvent Msg)
  | [], _ => [DistEvent.finishedQueueClosed]
  | m :: queue, i =>
    DistEvent.recv m ::
      match sink i with
      | SendOutcome.ok =>
          DistEvent.sent m :: distribute_messages_to_exchange sink queue (i + 1)
      | SendOutcome.errDisconnected => [DistEvent.breakDisconnected]
      | SendOutcome.errOther =>
          DistEvent.loggedSendError m ::
            distribute_messages_to_exchange sink queue (i + 1)

/-- The messages a distributor trace successfully sent over the transport,
in order. -/
def sentMessages {Msg : Type} (tr : List (DistEvent Msg)) : List Msg :=
  tr.filterMap fun e =>
    match e with
    | DistEvent.sent m => some m
    | _ => none

/-- The messages a distributor trace received from the outbound queue,
in order. -/
def receivedMessages {Msg : Type} (tr : List (DistEvent Msg)) : List Msg :=
  tr.filterMap fun e =>
    match e with
    | DistEvent.recv m => some m
    | _ => none

/-- Observable events of the ping scheduler task `schedule_pings_to_exchange`.
`tick` is a completed `interval.tick().await`; `invokedPing p` is the call
`let payload = ping()` returning `p`; `enqueued p` is a successful
`ws_sink_tx.send(payload)`; `breakSendFailed` is the `break` taken when that
send returns `Err` because the queue receiver was dropped. -/
inductive PingEvent (P : Type) where
  | tick
  | invokedPing (p : P)
  | enqueued (p : P)
  | breakSendFailed
deriving DecidableEq, Repr

/-- Embedding of `schedule_pings_to_exchange` (src/src/lib.rs:169-186).
The Rust `loop` is given explicit `fuel` (the number of interval ticks the
run is observed for); `i` counts loop iterations so far. `ping` is the
Connector-supplied generator, modelled with an invocation counter so that the
trace records which invocation produced each payload; `sendOk i` is whether the
queue receiver is still alive at the i-th `ws_sink_tx.send` (an unbounded mpsc
send fails exactly when the receiver has been dropped). Returns the event
trace and whether the loop terminated (took its `break`) within the fuel. -/
def schedule_pings_to_exchange {P : Type} (ping : Nat → P) (sendOk : Nat → Bool) :
    Nat → Nat → List (PingEvent P) × Bool
  | 0, _ => ([], false)
  | fuel + 1, i =>
    let payload := ping i
    if sendOk i then
      let rest := schedule_pings_to_exchange ping sendOk fuel (i + 1)
      (PingEvent.tick :: PingEvent.invokedPing payload ::
        PingEvent.enqueued payload :: rest.1, rest.2)
    else
      ([PingEvent.tick, PingEvent.invokedPing payload, PingEvent.breakSendFailed],
        true)

/-- The payloads a ping-scheduler trace pushed onto the outbound queue,
in order. -/
def enqueuedPayloads {P : Type} (tr : List (PingEvent P)) : List P :=
  tr.filterMap fun e =>
    match e with
    | PingEvent.enqueued p => some p
    | _ => none

/-- One complete loop iteration of the ping scheduler at invocation `j`:
the tick elapses, then the generator is invoked, then its payload is
enqueued. -/
def pingBlock {P : Type} (ping : Nat → P) (j : Nat) : List (PingEvent P) :=
  [PingEvent.tick, PingEvent.invokedPing (ping j), PingEvent.enqueued (ping j)]

/-- A connected duplex websocket, as returned by the Subscriber handshake.
`Snd` is the send half (`WsSink`), `Rcv` the receive half (`WsStream`). -/
structure WebSocket (Snd Rcv : Type) where
  sink : Snd
  stream : Rcv
deriving DecidableEq, Repr

/-- `websocket.split()`: split the socket into its send and receive halves. -/
def WebSocket.split {Snd Rcv : Type} (ws : WebSocket Snd Rcv) : Snd × Rcv :=
  (ws.sink, ws.stream)

/-- The pipeline value `init` returns: `ExchangeWsStream::new(ws_stream,
transformer)`, built from the receive half and the constructed Transformer. -/
structure ExchangeWsStream (Rcv T : Type) where
  ws_stream : Rcv
  transformer : T
deriving DecidableEq, Repr

/-- Observable steps of `MarketStream::init`, carrying the values each step
operates on: the subscribe handshake, splitting the socket (yielding the send
half), creating the unbounded outbound mpsc channel (yielding its sender),
spawning the distributor task (over the send half and the channel receiver),
spawning the optional ping-scheduler task (over a clone of the sender and the
declared `PingInterval`), awaiting `Transformer::new(sender, map)`, and
returning the built stream. -/
inductive InitEvent (Snd Sender M P T : Type) where
  | subscribeCalled
  | splitWebSocket (sink : Snd)
  | createdUnboundedChannel (tx : Sender)
  | spawnedDistributor (sink : Snd)
  | spawnedPingScheduler (tx : Sender) (pi : P)
  | calledTransformerNew (tx : Sender) (map : M)
  | returnedStream (t : T)
deriving DecidableEq, Repr

/-- The collaborators `init` composes, fixed for one call: the result of
`Exchange::Subscriber::subscribe(subscriptions)` (a connected socket plus the
resolution map, or a `DataError`), the value of `Exchange::ping_interval()`,
the sender produced by `mpsc::unbounded_channel()`, and the behaviour of
`Transformer::new(ws_sink_tx, map)`. -/
structure InitEnv (E Snd Rcv Sender M P T : Type) where
  subscribe : Except E (WebSocket Snd Rcv × M)
  ping_interval : Option P
  unbounded_channel_tx : Sender
  transformer_new : Sender → M → Except E T

/-- Embedding of `MarketStream::init` for `ExchangeWsStream`
(src/src/lib.rs:102-133), returning the trace of steps performed and the
result. The `?` on `subscribe` and on `Transformer::new` is modelled by
returning that error; the spawned tasks appear as spawn events (their own
behaviour is `distribute_messages_to_exchange` and
`schedule_pings_to_exchange` above); the ping-scheduler spawn happens exactly
under `if let Some(ping_interval) = Exchange::ping_interval()`. -/
def init {E Snd Rcv Sender M P T : Type} (env : InitEnv E Snd Rcv Sender M P T) :
    List (InitEvent Snd Sender M P T) × Except E (ExchangeWsStream Rcv T) :=
  match env.subscribe with
  | Except.error e => ([InitEvent.subscribeCalled], Except.error e)
  | Except.ok (websocket, map) =>
    let split := websocket.split
    let ws_sink := split.1
    let ws_stream := split.2
    let ws_sink_tx := env.unbounded_channel_tx
    let pre : List (InitEvent Snd Sender M P T) :=
      [InitEvent.subscribeCalled, InitEvent.splitWebSocket ws_sink,
        InitEvent.createdUnboundedChannel ws_sink_tx,
        InitEvent.spawnedDistributor ws_sink] ++
      (match env.ping_interval with
       | some pi => [InitEvent.spawnedPingScheduler ws_sink_tx pi]
       | none => [])
    match env.transformer_new ws_sink_tx map with
    | Except.error e =>
        (pre ++ [InitEvent.calledTransformerNew ws_sink_tx map], Except.error e)
    | Except.ok transformer =>
        (pre ++ [InitEvent.calledTransformerNew ws_sink_tx map,
          InitEvent.returnedStream transformer],
         Except.ok (ExchangeWsStream.mk ws_stream transformer))

/-- Modelled from the spec: the stateful multi-book transformer module
(`MultiBookTransformer`, spec section 4.4) is not under src/; only its
module declaration appears in `lib.rs`. Per-instrument reconstruction state:
the current book and the next-expected delta sequence number. -/
structure InstrumentBookState (Book : Type) where
  book : Book
  next_seq : Nat
deriving DecidableEq, Repr

/-- Modelled from the spec: an inbound book delta for one instrument, carrying
its update-id range `[start_seq, end_seq]` and the level changes it encodes,
abstracted as the function its application performs on a book. -/
structure BookDelta (Book : Type) where
  start_seq : Nat
  end_seq : Nat
  applyTo : Book → Book

/-- Modelled from the spec: a control message the transformer pushes onto the
outbound channel; resynchronization requests a new snapshot. -/
inductive OutboundRequest where
  | requestSnapshot
deriving DecidableEq, Repr

/-- Modelled from the spec: the reported outcome of processing one delta —
a normalized book event, a silent discard of a stale delta, a discard of an
unspecified overlapping range, or a recoverable gap condition reported in
place of output. -/
inductive DeltaResult (Book : Type) where
  | applied (b : Book)
  | staleDiscarded
  | overlapDiscarded
  | gap (expected start : Nat)
deriving DecidableEq, Repr

/-- Modelled from the spec: delta sequencing of the stateful multi-book
transformer (spec section 4.4, missing from src/). A delta is applied only if
its starting sequence is exactly the next-expected sequence; a start strictly
greater is a gap — state is invalidated (`none`), a snapshot resync is pushed
onto the outbound channel, and a recoverable gap condition is reported instead
of output; an end below the expected sequence is stale and discarded with
state and counter unchanged. Returns the instrument state after the delta
(`none` when invalidated), the outbound message triggered (if any), and the
reported outcome. -/
def process_delta {Book : Type} (st : InstrumentBookState Book)
    (d : BookDelta Book) :
    Option (InstrumentBookState Book) × Option OutboundRequest ×
      DeltaResult Book :=
  if d.start_seq = st.next_seq then
    (some (InstrumentBookState.mk (d.applyTo st.book) (d.end_seq + 1)), none,
      DeltaResult.applied (d.applyTo st.book))
  else if st.next_seq < d.start_seq then
    (none, some OutboundRequest.requestSnapshot,
      DeltaResult.gap st.next_seq d.start_seq)
  else if d.end_seq < st.next_seq then
    (some st, none, DeltaResult.staleDiscarded)
  else
    (some st, none, DeltaResult.overlapDiscarded)

/-- Modelled from the spec: the per-frame outcome of the wire parser plus
Transformer (`ExchangeStream` lives in the external `barter_integration`
crate, not under src/): zero-or-many normalized events, a non-fatal error, or
an error classified as fatal. -/
inductive ProcessOutcome (Ev E : Type) where
  | events (xs : List Ev)
  | nonfatal (e : E)
  | fatal (e : E)
deriving DecidableEq, Repr

/-- Modelled from the spec: the `ExchangeWsStream` polling pipeline (spec
section 4.7) over a finite sequence of inbound frames. Each frame's events are
yielded as individual `Ok` items; a non-fatal parse/transform error is
surfaced as exactly one `Err` item and the stream continues with the next
frame; a fatal error terminates the stream after its `Err` item. -/
def run_pipeline {Frame Ev E : Type} (process : Frame → ProcessOutcome Ev E) :
    List Frame → List (Except E Ev)
  | [] => []
  | f :: rest =>
    match process f with
    | ProcessOutcome.events xs =>
        xs.map Except.ok ++ run_pipeline process rest
    | ProcessOutcome.nonfatal e =>
        Except.error e :: run_pipeline process rest
    | ProcessOutcome.fatal e => [Except.error e]

theorem sentMessages_of_ok_from {Msg : Type} (sink : Nat → SendOutcome) :
    ∀ (queue : List Msg) (i : Nat),
      (∀ j, i ≤ j → sink j = SendOutcome.ok) →
      sentMessages (distribute_messages_to_exchange sink queue i) = queue := by
  intro queue
  induction queue with
  | nil => intro i _; simp [distribute_messages_to_exchange, sentMessages]
  | cons m rest ih =>
    intro i h
    have hi : sink i = SendOutcome.ok := h i (le_refl i)
    have hrest := ih (i + 1) (fun j hj => h j (Nat.le_of_succ_le hj))
    simp only [distribute_messages_to_exchange, hi, sentMessages, List.filterMap_cons] at *
    simpa [sentMessages] using hrest

/-- C2: if every transport send succeeds, the distributor sends exactly the
enqueued messages, in enqueue order. -/
theorem distributor_sends_all_in_order {Msg : Type} (sink : Nat → SendOutcome)
    (queue : List Msg) (h : ∀ j, sink j = SendOutcome.ok) :
    sentMessages (distribute_messages_to_exchange sink queue 0) = queue :=
  sentMessages_of_ok_from sink queue 0 (fun j _ => h j)

/-- Witness for C2 at a concrete queue of three messages. -/
theorem distributor_sends_all_in_order_witness :
    sentMessages
        (distribute_messages_to_exchange (fun _ => SendOutcome.ok) [10, 20, 30] 0) =
      [10, 20, 30] :=
  distributor_sends_all_in_order (fun _ => SendOutcome.ok) [10, 20, 30]
    (fun _ => rfl)

/-- C3: on a send failure at attempt `i` for message `m`, the distributor
terminates silently (no log event, nothing further processed) when the error
indicates disconnection; on any other error it logs, drops that one message
(no `sent m` event), and continues the loop so that, if all later sends
succeed, every remaining queued message is still sent in order. -/
theorem distributor_send_failure_handling {Msg : Type} (sink : Nat → SendOutcome)
    (m : Msg) (queue : List Msg) (i : Nat) :
    (sink i = SendOutcome.errDisconnected →
      distribute_messages_to_exchange sink (m :: queue) i =
        [DistEvent.recv m, DistEvent.breakDisconnected]) ∧
    (sink i = SendOutcome.errOther →
      distribute_messages_to_exchange sink (m :: queue) i =
        DistEvent.recv m :: DistEvent.loggedSendError m ::
          distribute_messages_to_exchange sink queue (i + 1)) ∧
    (sink i = SendOutcome.errOther → (∀ j, i + 1 ≤ j → sink j = SendOutcome.ok) →
      sentMessages (distribute_messages_to_exchange sink (m :: queue) i) = queue) := by
  refine ⟨?_, ?_, ?_⟩
  · intro h
    simp [distribute_messages_to_exchange, h]
  · intro h
    simp [distribute_messages_to_exchange, h]
  · intro h hrest
    simp only [distribute_messages_to_exchange, h, sentMessages, List.filterMap_cons]
    exact sentMessages_of_ok_from sink queue (i + 1) hrest

/-- Witness for C3: queue `[7, 8]` where the first send fails on a connected
socket and later sends succeed (clauses two and three), alongside a sink whose
first send signals disconnection (clause one). -/
theorem distributor_send_failure_handling_witness :
    ((fun _ : Nat => SendOutcome.errDisconnected) 0 = SendOutcome.errDisconnected →
      distribute_messages_to_exchange (fun _ => SendOutcome.errDisconnected)
          ([8] : List Nat) 0 =
        [DistEvent.recv 8, DistEvent.breakDisconnected]) ∧
    sentMessages
        (distribute_messages_to_exchange
          (fun j => if j = 0 then SendOutcome.errOther else SendOutcome.ok)
          ([7, 8] : List Nat) 0) =
      [8] := by
  constructor
  · exact (distributor_send_failure_handling
      (fun _ => SendOutcome.errDisconnected) 8 ([] : List Nat) 0).1
  · exact (distributor_send_failure_handling
      (fun j => if j = 0 then SendOutcome.errOther else SendOutcome.ok)
      7 [8] 0).2.2 (by decide) (fun j hj => by
        have hne : j ≠ 0 := by omega
        simp [hne])

/-- With every transport send from attempt `i` on succeeding, the distributor
receives and sends each queued message in order and then exits because the
queue is closed. -/
theorem distributor_trace_of_all_ok {Msg : Type} (sink : Nat → SendOutcome) :
    ∀ (queue : List Msg) (i : Nat),
      (∀ j, i ≤ j → sink j = SendOutcome.ok) →
      distribute_messages_to_exchange sink queue i =
        queue.flatMap (fun m => [DistEvent.recv m, DistEvent.sent m]) ++
          [DistEvent.finishedQueueClosed] := by
  intro queue
  induction queue with
  | nil => intro i _; simp [distribute_messages_to_exchange]
  | cons m rest ih =>
    intro i h
    have hi : sink i = SendOutcome.ok := h i (le_refl i)
    have hrest := ih (i + 1) (fun j hj => h j (Nat.le_of_succ_le hj))
    simp [distribute_messages_to_exchange, hi, hrest]

theorem receivedMessages_of_no_disconnect {Msg : Type} (sink : Nat → SendOutcome) :
    ∀ (queue : List Msg) (i : Nat),
      DistEvent.breakDisconnected ∉ distribute_messages_to_exchange sink queue i →
      receivedMessages (distribute_messages_to_exchange sink queue i) = queue := by
  intro queue
  induction queue with
  | nil => intro i _; simp [distribute_messages_to_exchange, receivedMessages]
  | cons m rest ih =>
    intro i h
    cases hsink : sink i with
    | ok =>
      simp only [distribute_messages_to_exchange, hsink] at h ⊢
      simp only [List.mem_cons, not_or] at h
      simp [receivedMessages, List.filterMap_cons]
      simpa [receivedMessages] using ih (i + 1) h.2.2
    | errDisconnected =>
      exfalso
      apply h
      simp [distribute_messages_to_exchange, hsink]
    | errOther =>
      simp only [distribute_messages_to_exchange, hsink] at h ⊢
      simp only [List.mem_cons, not_or] at h
      simp [receivedMessages, List.filterMap_cons]
      simpa [receivedMessages] using ih (i + 1) h.2.2

/-- C10: when all sender handles are dropped so the queue yields `queue` and
then closes, and every transport send succeeds, the distributor sends each
message still queued at closure time and then terminates via the closed queue
(never via disconnection); and in any run whatsoever, if the distributor exits
without a disconnection error then it has received every queued message — it
never exits leaving undelivered messages behind. -/
theorem distributor_drains_queue_before_exit {Msg : Type} (sink : Nat → SendOutcome)
    (queue : List Msg) :
    ((∀ j, sink j = SendOutcome.ok) →
      distribute_messages_to_exchange sink queue 0 =
        queue.flatMap (fun m => [DistEvent.recv m, DistEvent.sent m]) ++
          [DistEvent.finishedQueueClosed] ∧
      sentMessages (distribute_messages_to_exchange sink queue 0) = queue) ∧
    (DistEvent.breakDisconnected ∉ distribute_messages_to_exchange sink queue 0 →
      receivedMessages (distribute_messages_to_exchange sink queue 0) = queue) := by
  constructor
  · intro h
    exact ⟨distributor_trace_of_all_ok sink queue 0 (fun j _ => h j),
      sentMessages_of_ok_from sink queue 0 (fun j _ => h j)⟩
  · exact receivedMessages_of_no_disconnect sink queue 0

/-- Witness for C10 at a concrete queue of two messages with an always
succeeding transport. -/
theorem distributor_drains_queue_before_exit_witness :
    distribute_messages_to_exchange (fun _ => SendOutcome.ok) ([4, 5] : List Nat) 0 =
      [DistEvent.recv 4, DistEvent.sent 4, DistEvent.recv 5, DistEvent.sent 5,
        DistEvent.finishedQueueClosed] ∧
    receivedMessages
        (distribute_messages_to_exchange (fun _ => SendOutcome.ok) ([4, 5] : List Nat) 0) =
      [4, 5] := by
  have h := distributor_drains_queue_before_exit (fun _ => SendOutcome.ok)
    ([4, 5] : List Nat)
  refine ⟨by simpa using (h.1 (fun _ => rfl)).1, h.2 (by decide)⟩

theorem schedule_pings_trace_of_ok {P : Type} (ping : Nat → P) (sendOk : Nat → Bool) :
    ∀ (fuel i : Nat), (∀ j, i ≤ j → j < i + fuel → sendOk j = true) →
      schedule_pings_to_exchange ping sendOk fuel i =
        ((List.range' i fuel).flatMap (pingBlock ping), false) := by
  intro fuel
  induction fuel with
  | zero => intro i _; simp [schedule_pings_to_exchange]
  | succ f ih =>
    intro i h
    have hi : sendOk i = true := h i (le_refl i) (by omega)
    have hrest := ih (i + 1) (fun j hj hj2 => h j (by omega) (by omega))
    simp [schedule_pings_to_exchange, hi, hrest, List.range'_succ, pingBlock]

theorem enqueuedPayloads_blocks {P : Type} (ping : Nat → P) :
    ∀ l : List Nat, enqueuedPayloads (l.flatMap (pingBlock ping)) = l.map ping := by
  intro l
  induction l with
  | nil => simp [enqueuedPayloads]
  | cons a t ih =>
    simp only [List.flatMap_cons, enqueuedPayloads, List.filterMap_append, pingBlock,
      List.filterMap_cons, List.map_cons] at *
    simpa [enqueuedPayloads] using ih

/-- C4: in a run where the interval timer yields `M` ticks and every queue send
succeeds, the scheduler performs, for each tick `j < M`, the block
tick → invoke generator (invocation `j`) → enqueue the payload that invocation
just produced, and so enqueues exactly `M` payloads, the j-th being the
generator's j-th (tick-time, never precomputed) invocation result. -/
theorem ping_scheduler_one_payload_per_tick {P : Type} (ping : Nat → P)
    (sendOk : Nat → Bool) (M : Nat) (h : ∀ j, j < M → sendOk j = true) :
    schedule_pings_to_exchange ping sendOk M 0 =
      ((List.range M).flatMap (pingBlock ping), false) ∧
    enqueuedPayloads (schedule_pings_to_exchange ping sendOk M 0).1 =
      (List.range M).map ping := by
  have htr := schedule_pings_trace_of_ok ping sendOk M 0
    (fun j hj hj2 => h j (by omega))
  rw [List.range_eq_range' M]
  exact ⟨htr, by rw [htr]; exact enqueuedPayloads_blocks ping (List.range' 0 M)⟩

/-- Witness for C4: three ticks with generator `fun j => j * j` and a live
receiver enqueue exactly the payloads `[0, 1, 4]`. -/
theorem ping_scheduler_one_payload_per_tick_witness :
    enqueuedPayloads
        (schedule_pings_to_exchange (fun j => j * j) (fun _ => true) 3 0).1 =
      [0, 1, 4] := by
  have h := (ping_scheduler_one_payload_per_tick (fun j => j * j) (fun _ => true) 3
    (fun _ _ => rfl)).2
  simpa using h

theorem schedule_pings_stops_at_failure {P : Type} (ping : Nat → P)
    (sendOk : Nat → Bool) :
    ∀ (k fuel i : Nat), k < fuel →
      (∀ j, i ≤ j → j < i + k → sendOk j = true) → sendOk (i + k) = false →
      schedule_pings_to_exchange ping sendOk fuel i =
        ((List.range' i k).flatMap (pingBlock ping) ++
          [PingEvent.tick, PingEvent.invokedPing (ping (i + k)),
            PingEvent.breakSendFailed], true) := by
  intro k
  induction k with
  | zero =>
    intro fuel i hk h hfail
    cases fuel with
    | zero => omega
    | succ f =>
      simp only [Nat.add_zero] at hfail
      simp [schedule_pings_to_exchange, hfail]
  | succ k ih =>
    intro fuel i hk h hfail
    cases fuel with
    | zero => omega
    | succ f =>
      have hi : sendOk i = true := h i (le_refl i) (by omega)
      have hshift : i + (k + 1) = (i + 1) + k := by omega
      rw [hshift] at hfail
      have hrest := ih f (i + 1) (by omega) (fun j hj hj2 => h j (by omega) (by omega))
        hfail
      simp [schedule_pings_to_exchange, hi, hrest, List.range'_succ, hshift,
        pingBlock]

/-- C5: the ping scheduler never takes its `break` while every queue send
succeeds (for any fuel, the loop has not terminated), and when the first
failed send occurs at invocation `k` — exactly the point where the queue
receiver has been dropped — the loop runs its first `k` full iterations,
then ticks, invokes the generator, and terminates at that first failed send,
having enqueued exactly the first `k` payloads. -/
theorem ping_scheduler_terminates_only_on_failed_send {P : Type} (ping : Nat → P)
    (sendOk : Nat → Bool) (fuel k : Nat) :
    ((∀ j, j < fuel → sendOk j = true) →
      (schedule_pings_to_exchange ping sendOk fuel 0).2 = false) ∧
    (k < fuel → (∀ j, j < k → sendOk j = true) → sendOk k = false →
      schedule_pings_to_exchange ping sendOk fuel 0 =
        ((List.range k).flatMap (pingBlock ping) ++
          [PingEvent.tick, PingEvent.invokedPing (ping k),
            PingEvent.breakSendFailed], true) ∧
      enqueuedPayloads (schedule_pings_to_exchange ping sendOk fuel 0).1 =
        (List.range k).map ping) := by
  constructor
  · intro h
    rw [schedule_pings_trace_of_ok ping sendOk fuel 0 (fun j hj hj2 => h j (by omega))]
  · intro hk h hfail
    have htr := schedule_pings_stops_at_failure ping sendOk k fuel 0 hk
      (fun j hj hj2 => h j (by omega)) (by simpa using hfail)
    rw [List.range_eq_range' k]
    simp only [Nat.zero_add] at htr
    refine ⟨htr, ?_⟩
    rw [htr]
    simp only [enqueuedPayloads, List.filterMap_append]
    have hb := enqueuedPayloads_blocks ping (List.range' 0 k)
    simp only [enqueuedPayloads] at hb
    simp [hb]

/-- C1: when the handshake and Transformer construction both succeed, `init`
performs exactly, in order: the subscribe handshake, the socket split,
creation of the unbounded outbound channel, the distributor spawn over the
send half, the ping-scheduler spawn exactly when `ping_interval()` is `Some`,
the `Transformer::new` call on the channel sender and resolution map, and
returns the pipeline built from the receive half and that Transformer. -/
theorem init_full_sequence {E Snd Rcv Sender M P T : Type}
    (env : InitEnv E Snd Rcv Sender M P T) (ws : WebSocket Snd Rcv) (map : M)
    (t : T) (hsub : env.subscribe = Except.ok (ws, map))
    (htr : env.transformer_new env.unbounded_channel_tx map = Except.ok t) :
    init env =
      ([InitEvent.subscribeCalled, InitEvent.splitWebSocket ws.sink,
        InitEvent.createdUnboundedChannel env.unbounded_channel_tx,
        InitEvent.spawnedDistributor ws.sink] ++
       (match env.ping_interval with
        | some pi => [InitEvent.spawnedPingScheduler env.unbounded_channel_tx pi]
        | none => []) ++
       [InitEvent.calledTransformerNew env.unbounded_channel_tx map,
        InitEvent.returnedStream t],
       Except.ok (ExchangeWsStream.mk ws.stream t)) := by
  simp [init, hsub, htr, WebSocket.split]

/-- Witness for C1 at a concrete environment (all collaborator types `Nat`,
with a declared ping interval). -/
theorem init_full_sequence_witness :
    init (@InitEnv.mk Nat Nat Nat Nat Nat Nat Nat
        (Except.ok (WebSocket.mk 1 2, 3)) (some 9) 5
        (fun tx m => Except.ok (tx + m))) =
      ([InitEvent.subscribeCalled, InitEvent.splitWebSocket 1,
        InitEvent.createdUnboundedChannel 5, InitEvent.spawnedDistributor 1,
        InitEvent.spawnedPingScheduler 5 9, InitEvent.calledTransformerNew 5 3,
        InitEvent.returnedStream 8],
       Except.ok (ExchangeWsStream.mk 2 8)) := by
  have h := init_full_sequence
    (@InitEnv.mk Nat Nat Nat Nat Nat Nat Nat
      (Except.ok (WebSocket.mk 1 2, 3)) (some 9) 5
      (fun tx m => Except.ok (tx + m)))
    (WebSocket.mk 1 2) 3 8 rfl rfl
  simpa using h

/-- C6: `init` propagates fatal errors: a failed subscribe handshake makes
`init` return that error, and a failed `Transformer::new` makes `init` return
that error; in both cases the result is an `Except.error`, never a stream. -/
theorem init_err_on_fatal {E Snd Rcv Sender M P T : Type}
    (env : InitEnv E Snd Rcv Sender M P T) (e : E) (ws : WebSocket Snd Rcv)
    (map : M) (e2 : E) :
    (env.subscribe = Except.error e → (init env).2 = Except.error e) ∧
    (env.subscribe = Except.ok (ws, map) →
      env.transformer_new env.unbounded_channel_tx map = Except.error e2 →
      (init env).2 = Except.error e2) := by
  constructor
  · intro h
    simp [init, h]
  · intro hsub htr
    simp [init, hsub, htr, WebSocket.split]

/-- Witness for C6 at concrete environments: one whose subscribe handshake
fails with error 41, one whose Transformer construction fails with
error 42. -/
theorem init_err_on_fatal_witness :
    (init (@InitEnv.mk Nat Nat Nat Nat Nat Nat Nat (Except.error 41) none 5
        (fun _ _ => Except.ok 0))).2 = Except.error 41 ∧
    (init (@InitEnv.mk Nat Nat Nat Nat Nat Nat Nat
        (Except.ok (WebSocket.mk 1 2, 3)) none 5
        (fun _ _ => Except.error 42))).2 = Except.error 42 := by
  constructor
  · exact (init_err_on_fatal
      (@InitEnv.mk Nat Nat Nat Nat Nat Nat Nat (Except.error 41) none 5
        (fun _ _ => Except.ok 0))
      41 (WebSocket.mk 0 0) 0 0).1 rfl
  · exact (init_err_on_fatal
      (@InitEnv.mk Nat Nat Nat Nat Nat Nat Nat
        (Except.ok (WebSocket.mk 1 2, 3)) none 5
        (fun _ _ => Except.error 42))
      0 (WebSocket.mk 1 2) 3 42).2 rfl rfl

/-- C9: when subscribe fails, `init` stops at the handshake — no channel is
created and no task is spawned; when subscribe succeeds but `Transformer::new`
fails, `init` returns that error with a trace showing the channel creation,
the distributor spawn, and the conditional ping-scheduler spawn all occurring
after the handshake and strictly before the `Transformer::new` call. -/
theorem init_spawn_ordering {E Snd Rcv Sender M P T : Type}
    (env : InitEnv E Snd Rcv Sender M P T) (e : E) (ws : WebSocket Snd Rcv)
    (map : M) (e2 : E) :
    (env.subscribe = Except.error e →
      init env = ([InitEvent.subscribeCalled], Except.error e)) ∧
    (env.subscribe = Except.ok (ws, map) →
      env.transformer_new env.unbounded_channel_tx map = Except.error e2 →
      init env =
        ([InitEvent.subscribeCalled, InitEvent.splitWebSocket ws.sink,
          InitEvent.createdUnboundedChannel env.unbounded_channel_tx,
          InitEvent.spawnedDistributor ws.sink] ++
         (match env.ping_interval with
          | some pi =>
              [InitEvent.spawnedPingScheduler env.unbounded_channel_tx pi]
          | none => []) ++
         [InitEvent.calledTransformerNew env.unbounded_channel_tx map],
         Except.error e2)) := by
  constructor
  · intro h
    simp [init, h]
  · intro hsub htr
    simp [init, hsub, htr, WebSocket.split]

/-- Witness for C9 at the same two concrete environments used for C6, the
second with a declared ping interval. -/
theorem init_spawn_ordering_witness :
    init (@InitEnv.mk Nat Nat Nat Nat Nat Nat Nat (Except.error 41) none 5
        (fun _ _ => Except.ok 0)) =
      ([InitEvent.subscribeCalled], Except.error 41) ∧
    init (@InitEnv.mk Nat Nat Nat Nat Nat Nat Nat
        (Except.ok (WebSocket.mk 1 2, 3)) (some 9) 5
        (fun _ _ => Except.error 42)) =
      ([InitEvent.subscribeCalled, InitEvent.splitWebSocket 1,
        InitEvent.createdUnboundedChannel 5, InitEvent.spawnedDistributor 1,
        InitEvent.spawnedPingScheduler 5 9, InitEvent.calledTransformerNew 5 3],
       Except.error 42) := by
  constructor
  · exact (init_spawn_ordering
      (@InitEnv.mk Nat Nat Nat Nat Nat Nat Nat (Except.error 41) none 5
        (fun _ _ => Except.ok 0))
      41 (WebSocket.mk 0 0) 0 0).1 rfl
  · have h := (init_spawn_ordering
      (@InitEnv.mk Nat Nat Nat Nat Nat Nat Nat
        (Except.ok (WebSocket.mk 1 2, 3)) (some 9) 5
        (fun _ _ => Except.error 42))
      0 (WebSocket.mk 1 2) 3 42).2 rfl rfl
    simpa using h

/-- Witness for C5: with the receiver dropped from invocation 2 onward, a run
with fuel 5 terminates at the first failed send having enqueued the first two
payloads. -/
theorem ping_scheduler_terminates_only_on_failed_send_witness :
    schedule_pings_to_exchange (fun j => j + 100) (fun j => j < 2) 5 0 =
      (((List.range 2).flatMap (pingBlock (fun j => j + 100))) ++
        [PingEvent.tick, PingEvent.invokedPing 102, PingEvent.breakSendFailed],
        true) ∧
    enqueuedPayloads
        (schedule_pings_to_exchange (fun j => j + 100) (fun j => j < 2) 5 0).1 =
      [100, 101] := by
  have h := (ping_scheduler_terminates_only_on_failed_send (fun j => j + 100)
    (fun j => decide (j < 2)) 5 2).2 (by omega) (fun j hj => by simp; omega)
    (by decide)
  refine ⟨by simpa using h.1, by simpa using h.2⟩

/-- C7: for an instrument with initialized book state, a delta whose start
sequence equals the next-expected sequence is applied (book updated, counter
advanced past the delta's range, a book event reported); a start strictly
greater than expected invalidates the state, pushes a snapshot
resynchronization onto the outbound channel, and reports a recoverable gap
instead of output; a well-formed delta whose end sequence is below the
expected sequence is discarded with book state and expected-sequence counter
unchanged. -/
theorem book_delta_sequencing {Book : Type} (st : InstrumentBookState Book)
    (d : BookDelta Book) :
    (d.start_seq = st.next_seq →
      process_delta st d =
        (some (InstrumentBookState.mk (d.applyTo st.book) (d.end_seq + 1)),
          none, DeltaResult.applied (d.applyTo st.book))) ∧
    (st.next_seq < d.start_seq →
      process_delta st d =
        (none, some OutboundRequest.requestSnapshot,
          DeltaResult.gap st.next_seq d.start_seq)) ∧
    (d.start_seq ≤ d.end_seq → d.end_seq < st.next_seq →
      process_delta st d = (some st, none, DeltaResult.staleDiscarded)) := by
  refine ⟨?_, ?_, ?_⟩
  · intro h
    simp [process_delta, h]
  · intro h
    have hne : d.start_seq ≠ st.next_seq := by omega
    simp [process_delta, hne, h]
  · intro hwf h
    have hne : d.start_seq ≠ st.next_seq := by omega
    have hlt : ¬ st.next_seq < d.start_seq := by omega
    simp [process_delta, hne, hlt, h]

/-- Witness for C7 over `Book := Nat`: an in-sequence delta `[5,7]` against
expected 5 is applied; a delta starting at 8 against expected 5 triggers
invalidation plus resync; a delta `[2,4]` against expected 9 is a no-op. -/
theorem book_delta_sequencing_witness :
    process_delta (InstrumentBookState.mk 10 5) (BookDelta.mk 5 7 (fun b => b + 1)) =
      (some (InstrumentBookState.mk 11 8), none, DeltaResult.applied 11) ∧
    process_delta (InstrumentBookState.mk 10 5) (BookDelta.mk 8 9 (fun b => b + 1)) =
      (none, some OutboundRequest.requestSnapshot, DeltaResult.gap 5 8) ∧
    process_delta (InstrumentBookState.mk 10 9) (BookDelta.mk 2 4 (fun b => b + 1)) =
      (some (InstrumentBookState.mk 10 9), none, DeltaResult.staleDiscarded) := by
  refine ⟨?_, ?_, ?_⟩
  · exact (book_delta_sequencing (InstrumentBookState.mk 10 5)
      (BookDelta.mk 5 7 (fun b => b + 1))).1 rfl
  · exact (book_delta_sequencing (InstrumentBookState.mk 10 5)
      (BookDelta.mk 8 9 (fun b => b + 1))).2.1 (by decide)
  · exact (book_delta_sequencing (InstrumentBookState.mk 10 9)
      (BookDelta.mk 2 4 (fun b => b + 1))).2.2 (by decide) (by decide)

/-- C8: a frame whose parsing or transformation fails non-fatally contributes
exactly one `Err` item to the stream, after which the pipeline continues with
the remaining frames; a frame failing with an error classified as fatal
terminates the stream. -/
theorem pipeline_nonfatal_err_continues {Frame Ev E : Type}
    (process : Frame → ProcessOutcome Ev E) (f : Frame) (rest : List Frame)
    (e : E) :
    (process f = ProcessOutcome.nonfatal e →
      run_pipeline process (f :: rest) =
        Except.error e :: run_pipeline process rest) ∧
    (process f = ProcessOutcome.fatal e →
      run_pipeline process (f :: rest) = [Except.error e]) := by
  constructor
  · intro h
    simp [run_pipeline, h]
  · intro h
    simp [run_pipeline, h]

/-- Witness for C8: frame 1 fails non-fatally with error 7 and the pipeline
continues into frames 2 and 3; under a processor where frame 1 is fatal the
stream ends at its single `Err` item. -/
theorem pipeline_nonfatal_err_continues_witness :
    run_pipeline
        (fun f : Nat =>
          if f = 1 then ProcessOutcome.nonfatal 7 else ProcessOutcome.events [f])
        [1, 2, 3] =
      [Except.error 7, Except.ok 2, Except.ok 3] ∧
    run_pipeline
        (fun f : Nat =>
          if f = 1 then ProcessOutcome.fatal 9
          else ProcessOutcome.events ([f] : List Nat))
        [1, 2, 3] =
      [Except.error 9] := by
  constructor
  · have h := (pipeline_nonfatal_err_continues
      (fun f : Nat =>
        if f = 1 then ProcessOutcome.nonfatal 7 else ProcessOutcome.events [f])
      1 [2, 3] 7).1 rfl
    rw [h]
    simp [run_pipeline]
  · have h := (pipeline_nonfatal_err_continues
      (fun f : Nat =>
        if f = 1 then ProcessOutcome.fatal 9
        else ProcessOutcome.events ([f] : List Nat))
      1 [2, 3] 9).2 rfl
    rw [h]

end BarterData
